import Mathlib

/-!
Verification of the rust-future repository (a single-assignment promise/future
pair with derived transformation combinators).

The development embeds two layers of the source:

* A denotational model of RESOLVED futures (`FutureVal`): the crate root
  `src/lib.rs` implements every derived operation (`map`, `and_then`,
  `transform`, `transformf`, ...) by creating a fresh pair and wiring
  `resolve`/`set_result`; when the upstream future is already resolved the
  callback fires immediately, so a resolved `Future<A, E>` denotes exactly the
  `Result<A, E>` it holds and each combinator denotes the function given by its
  `match` arms in the source.  The combinators below are transcribed arm by arm
  from `src/lib.rs` and `src/join.rs`.

* An operational model of the rendezvous cell: states carry the result slot and
  the callback slot (plus, for the `src/future.rs` iteration, the liveness
  flag), and `resolve` / `set_result` return the successor state together with
  the list of primitive events they perform (mutex lock, mutex unlock, and
  invocation of a stored user callback with a value).  The event lists follow
  the source line by line; in particular the Rust mutex guards
  (`let _lock = self.lock.lock().unwrap()` in `src/lib.rs`, and the
  lifetime-extended `&*self.lock.lock().unwrap()` borrow in `src/future.rs`)
  are dropped at the end of the enclosing function body, so the unlock event
  comes after any callback invocation.
-/

namespace RustFuture

/-- Rust `Result<A, E>` as used throughout `src/lib.rs`. -/
inductive RustResult (A E : Type) where
  | Ok (a : A)
  | Err (e : E)
deriving DecidableEq, Repr

namespace RustResult

/-- Rust `Result::map_err` (std): applies `f` to the `Err` payload. -/
def map_err {A E E2 : Type} (r : RustResult A E) (f : E → E2) : RustResult A E2 :=
  match r with
  | Ok a => Ok a
  | Err e => Err (f e)

end RustResult

/-- Denotation of a resolved `Future<A, E>`: the result it holds.  Every
combinator in `src/lib.rs` builds a fresh pair and publishes into it as soon as
the upstream resolves, so on resolved futures each combinator is the pure
function of its `match` arms. -/
abbrev FutureVal (A E : Type) := RustResult A E

/-- `future::done` (src/lib.rs lines 101-105): build a pair and immediately
`set_result`; the fresh cell has no callback, so the result is stored and the
future denotes it. -/
def done {A E : Type} (result : RustResult A E) : FutureVal A E :=
  result

/-- `future::value` (src/lib.rs lines 91-93). -/
def value {A E : Type} (a : A) : FutureVal A E :=
  done (RustResult.Ok a)

/-- `future::err` (src/lib.rs lines 96-98). -/
def err {A E : Type} (e : E) : FutureVal A E :=
  done (RustResult.Err e)

/-- `Future::transform` (src/lib.rs lines 265-275): on a resolved upstream the
installed callback fires at once and publishes `f result` into the fresh
pair. -/
def transform {A B E E2 : Type} (self : FutureVal A E)
    (f : RustResult A E → RustResult B E2) : FutureVal B E2 :=
  f self

/-- `Future::transformf` (src/lib.rs lines 304-314): the fresh pair is resolved
by chaining `resolve` of the inner future into the outer setter, so on resolved
inputs it denotes the inner future `f result`. -/
def transformf {A B E E2 : Type} (self : FutureVal A E)
    (f : RustResult A E → FutureVal B E2) : FutureVal B E2 :=
  f self

/-- `Future::map` (src/lib.rs lines 161-169), via `transform`. -/
def map {A B E : Type} (self : FutureVal A E) (f : A → B) : FutureVal B E :=
  transform self (fun result => match result with
    | RustResult.Ok a => RustResult.Ok (f a)
    | RustResult.Err e => RustResult.Err e)

/-- `Future::map_err` (src/lib.rs lines 183-191), via `transform`. -/
def map_err {A E E2 : Type} (self : FutureVal A E) (f : E → E2) : FutureVal A E2 :=
  transform self (fun result => match result with
    | RustResult.Err e => RustResult.Err (f e)
    | RustResult.Ok a => RustResult.Ok a)

/-- `Future::handle` (src/lib.rs lines 209-216), via `transform`. -/
def handle {A E : Type} (self : FutureVal A E) (f : E → A) : FutureVal A E :=
  transform self (fun result => match result with
    | RustResult.Err e => RustResult.Ok (f e)
    | RustResult.Ok a => RustResult.Ok a)

/-- `Future::and_then` (src/lib.rs lines 241-250); `conv` is the `E2: Into<E>`
conversion applied by `map_err(E2::into)` in the source. -/
def and_then {A B E E2 : Type} (self : FutureVal A E) (conv : E2 → E)
    (f : A → RustResult B E2) : FutureVal B E :=
  transform self (fun result => match result with
    | RustResult.Ok a => (f a).map_err conv
    | RustResult.Err e => RustResult.Err e)

/-- `Future::rescue` (src/lib.rs lines 253-261). -/
def rescue {A E E2 : Type} (self : FutureVal A E) (conv : E2 → E)
    (f : E → RustResult A E2) : FutureVal A E :=
  transform self (fun result => match result with
    | RustResult.Err e => (f e).map_err conv
    | RustResult.Ok a => RustResult.Ok a)

/-- `Future::and_thenf` (src/lib.rs lines 279-288); the `Ok` arm applies the
future-level `map_err` with the `Into` conversion, the `Err` arm is
`done(Err(e))`. -/
def and_thenf {A B E E2 : Type} (self : FutureVal A E) (conv : E2 → E)
    (f : A → FutureVal B E2) : FutureVal B E :=
  transformf self (fun result => match result with
    | RustResult.Ok a => map_err (f a) conv
    | RustResult.Err e => done (RustResult.Err e))

/-- `Future::rescuef` (src/lib.rs lines 292-300). -/
def rescuef {A E E2 : Type} (self : FutureVal A E) (conv : E2 → E)
    (f : E → FutureVal A E2) : FutureVal A E :=
  transformf self (fun result => match result with
    | RustResult.Err e => map_err (f e) conv
    | RustResult.Ok a => done (RustResult.Ok a))

/-- Decimal digit value of a character, used to model Rust
`str::parse::<i64>`. -/
def digitVal (c : Char) : Option Nat :=
  if c.toNat >= 48 && c.toNat <= 57 then some (c.toNat - 48) else none

/-- Accumulating decimal parse of a character list; `none` on empty input or a
non-digit character, matching the failure cases of Rust `str::parse`. -/
def parseNatChars : List Char → Option Nat → Option Nat
  | [], acc => acc
  | c :: cs, acc =>
    match digitVal c with
    | some d => parseNatChars cs (some ((acc.getD 0) * 10 + d))
    | none => none

/-- Model of Rust `str::parse::<i64>` on the small decimal numerals appearing
in the verified scenarios (an optional leading minus sign followed by decimal
digits; overflow cannot occur at these magnitudes). -/
def parseI64 (s : String) : Option Int :=
  match s.data with
  | '-' :: cs => (parseNatChars cs none).map (fun n => -(n : Int))
  | cs => (parseNatChars cs none).map (fun n => (n : Int))

/-- `incr_string` from the test module (src/lib.rs lines 546-548): parse the
integer string, add 1, re-stringify.  The source unwraps the parse; every
string reaching it in the verified scenario is numeric, so the `getD 0`
default is never used. -/
def incr_string (s : String) : String :=
  toString ((parseI64 s).getD 0 + 1)

/-- The S4 chain (src/lib.rs test `transformations_are_respected_when_resolved`,
lines 500-520), transcribed step by step.  The `Err` arm of the `transform`
step and the `Ok` arm of the `transformf` step panic in the source and are
unreachable in this run; they are modelled by an arbitrary `"panic"` payload. -/
def chainS4 : FutureVal Int String :=
  let f1 : FutureVal Int String := value 0
  let f2 := map f1 (fun n => n + 1)
  let f3 := and_then f2 id (fun n => RustResult.Ok (n + 1))
  let f4 := transform f3 (fun r => match r with
    | RustResult.Ok n => RustResult.Err (toString (n + 1))
    | RustResult.Err _ => RustResult.Err "panic")
  let f5 := map_err f4 incr_string
  let f6 := rescue f5 id (fun s => RustResult.Err (incr_string s))
  let f7 := handle f6 (fun s => (parseI64 s).getD 0 + 1)
  let f8 := and_thenf f7 id (fun n => err (toString (n + 1)))
  let f9 := transformf f8 (fun (r : RustResult Int String) => match r with
    | RustResult.Err s => err (incr_string s)
    | RustResult.Ok _ => err "panic")
  rescuef f9 id (fun s => value ((parseI64 s).getD 0 + 1))

/-- `join2` (src/join.rs), transcribed from the nested `and_thenf`/`map`
chain; the `Into<ERR>` conversion for the common error type is the identity. -/
def join2 {A B ERR : Type}
    (fa : FutureVal A ERR) (fb : FutureVal B ERR) :
    FutureVal (A × B) ERR :=
  and_thenf fa id (fun a => map fb (fun b => (a, b)))

/-- Reference function written from the spec words for `join_2`: if every
input succeeds the ordered tuple of successes, otherwise the first failure
encountered along the left-to-right chain. -/
def joinSpec2 {A B ERR : Type}
    (ra : RustResult A ERR) (rb : RustResult B ERR) :
    RustResult (A × B) ERR :=
  match ra with
  | RustResult.Err e => RustResult.Err e
  | RustResult.Ok a =>
    match rb with
    | RustResult.Err e => RustResult.Err e
    | RustResult.Ok b =>
      RustResult.Ok (a, b)

/-- `join3` (src/join.rs), transcribed from the nested `and_thenf`/`map`
chain; the `Into<ERR>` conversion for the common error type is the identity. -/
def join3 {A B C ERR : Type}
    (fa : FutureVal A ERR) (fb : FutureVal B ERR) (fc : FutureVal C ERR) :
    FutureVal (A × B × C) ERR :=
  and_thenf fa id (fun a => and_thenf fb id (fun b => map fc (fun c => (a, b, c))))

/-- Reference function written from the spec words for `join_3`: if every
input succeeds the ordered tuple of successes, otherwise the first failure
encountered along the left-to-right chain. -/
def joinSpec3 {A B C ERR : Type}
    (ra : RustResult A ERR) (rb : RustResult B ERR) (rc : RustResult C ERR) :
    RustResult (A × B × C) ERR :=
  match ra with
  | RustResult.Err e => RustResult.Err e
  | RustResult.Ok a =>
    match rb with
    | RustResult.Err e => RustResult.Err e
    | RustResult.Ok b =>
      match rc with
      | RustResult.Err e => RustResult.Err e
      | RustResult.Ok c =>
        RustResult.Ok (a, b, c)

/-- `join4` (src/join.rs), transcribed from the nested `and_thenf`/`map`
chain; the `Into<ERR>` conversion for the common error type is the identity. -/
def join4 {A B C D ERR : Type}
    (fa : FutureVal A ERR) (fb : FutureVal B ERR) (fc : FutureVal C ERR) (fd : FutureVal D ERR) :
    FutureVal (A × B × C × D) ERR :=
  and_thenf fa id (fun a => and_thenf fb id (fun b => and_thenf fc id (fun c => map fd (fun d => (a, b, c, d)))))

/-- Reference function written from the spec words for `join_4`: if every
input succeeds the ordered tuple of successes, otherwise the first failure
encountered along the left-to-right chain. -/
def joinSpec4 {A B C D ERR : Type}
    (ra : RustResult A ERR) (rb : RustResult B ERR) (rc : RustResult C ERR) (rd : RustResult D ERR) :
    RustResult (A × B × C × D) ERR :=
  match ra with
  | RustResult.Err e => RustResult.Err e
  | RustResult.Ok a =>
    match rb with
    | RustResult.Err e => RustResult.Err e
    | RustResult.Ok b =>
      match rc with
      | RustResult.Err e => RustResult.Err e
      | RustResult.Ok c =>
        match rd with
        | RustResult.Err e => RustResult.Err e
        | RustResult.Ok d =>
          RustResult.Ok (a, b, c, d)

/-- `join5` (src/join.rs), transcribed from the nested `and_thenf`/`map`
chain; the `Into<ERR>` conversion for the common error type is the identity. -/
def join5 {A B C D E ERR : Type}
    (fa : FutureVal A ERR) (fb : FutureVal B ERR) (fc : FutureVal C ERR) (fd : FutureVal D ERR) (fe : FutureVal E ERR) :
    FutureVal (A × B × C × D × E) ERR :=
  and_thenf fa id (fun a => and_thenf fb id (fun b => and_thenf fc id (fun c => and_thenf fd id (fun d => map fe (fun e => (a, b, c, d, e))))))

/-- Reference function written from the spec words for `join_5`: if every
input succeeds the ordered tuple of successes, otherwise the first failure
encountered along the left-to-right chain. -/
def joinSpec5 {A B C D E ERR : Type}
    (ra : RustResult A ERR) (rb : RustResult B ERR) (rc : RustResult C ERR) (rd : RustResult D ERR) (re : RustResult E ERR) :
    RustResult (A × B × C × D × E) ERR :=
  match ra with
  | RustResult.Err e => RustResult.Err e
  | RustResult.Ok a =>
    match rb with
    | RustResult.Err e => RustResult.Err e
    | RustResult.Ok b =>
      match rc with
      | RustResult.Err e => RustResult.Err e
      | RustResult.Ok c =>
        match rd with
        | RustResult.Err e => RustResult.Err e
        | RustResult.Ok d =>
          match re with
          | RustResult.Err e => RustResult.Err e
          | RustResult.Ok e =>
            RustResult.Ok (a, b, c, d, e)

/-- `join6` (src/join.rs), transcribed from the nested `and_thenf`/`map`
chain; the `Into<ERR>` conversion for the common error type is the identity. -/
def join6 {A B C D E F ERR : Type}
    (fa : FutureVal A ERR) (fb : FutureVal B ERR) (fc : FutureVal C ERR) (fd : FutureVal D ERR) (fe : FutureVal E ERR) (ff : FutureVal F ERR) :
    FutureVal (A × B × C × D × E × F) ERR :=
  and_thenf fa id (fun a => and_thenf fb id (fun b => and_thenf fc id (fun c => and_thenf fd id (fun d => and_thenf fe id (fun e => map ff (fun f => (a, b, c, d, e, f)))))))

/-- Reference function written from the spec words for `join_6`: if every
input succeeds the ordered tuple of successes, otherwise the first failure
encountered along the left-to-right chain. -/
def joinSpec6 {A B C D E F ERR : Type}
    (ra : RustResult A ERR) (rb : RustResult B ERR) (rc : RustResult C ERR) (rd : RustResult D ERR) (re : RustResult E ERR) (rf : RustResult F ERR) :
    RustResult (A × B × C × D × E × F) ERR :=
  match ra with
  | RustResult.Err e => RustResult.Err e
  | RustResult.Ok a =>
    match rb with
    | RustResult.Err e => RustResult.Err e
    | RustResult.Ok b =>
      match rc with
      | RustResult.Err e => RustResult.Err e
      | RustResult.Ok c =>
        match rd with
        | RustResult.Err e => RustResult.Err e
        | RustResult.Ok d =>
          match re with
          | RustResult.Err e => RustResult.Err e
          | RustResult.Ok e =>
            match rf with
            | RustResult.Err e => RustResult.Err e
            | RustResult.Ok f =>
              RustResult.Ok (a, b, c, d, e, f)

/-- `join7` (src/join.rs), transcribed from the nested `and_thenf`/`map`
chain; the `Into<ERR>` conversion for the common error type is the identity. -/
def join7 {A B C D E F G ERR : Type}
    (fa : FutureVal A ERR) (fb : FutureVal B ERR) (fc : FutureVal C ERR) (fd : FutureVal D ERR) (fe : FutureVal E ERR) (ff : FutureVal F ERR) (fg : FutureVal G ERR) :
    FutureVal (A × B × C × D × E × F × G) ERR :=
  and_thenf fa id (fun a => and_thenf fb id (fun b => and_thenf fc id (fun c => and_thenf fd id (fun d => and_thenf fe id (fun e => and_thenf ff id (fun f => map fg (fun g => (a, b, c, d, e, f, g))))))))

/-- Reference function written from the spec words for `join_7`: if every
input succeeds the ordered tuple of successes, otherwise the first failure
encountered along the left-to-right chain. -/
def joinSpec7 {A B C D E F G ERR : Type}
    (ra : RustResult A ERR) (rb : RustResult B ERR) (rc : RustResult C ERR) (rd : RustResult D ERR) (re : RustResult E ERR) (rf : RustResult F ERR) (rg : RustResult G ERR) :
    RustResult (A × B × C × D × E × F × G) ERR :=
  match ra with
  | RustResult.Err e => RustResult.Err e
  | RustResult.Ok a =>
    match rb with
    | RustResult.Err e => RustResult.Err e
    | RustResult.Ok b =>
      match rc with
      | RustResult.Err e => RustResult.Err e
      | RustResult.Ok c =>
        match rd with
        | RustResult.Err e => RustResult.Err e
        | RustResult.Ok d =>
          match re with
          | RustResult.Err e => RustResult.Err e
          | RustResult.Ok e =>
            match rf with
            | RustResult.Err e => RustResult.Err e
            | RustResult.Ok f =>
              match rg with
              | RustResult.Err e => RustResult.Err e
              | RustResult.Ok g =>
                RustResult.Ok (a, b, c, d, e, f, g)

/-- `join8` (src/join.rs), transcribed from the nested `and_thenf`/`map`
chain; the `Into<ERR>` conversion for the common error type is the identity. -/
def join8 {A B C D E F G H ERR : Type}
    (fa : FutureVal A ERR) (fb : FutureVal B ERR) (fc : FutureVal C ERR) (fd : FutureVal D ERR) (fe : FutureVal E ERR) (ff : FutureVal F ERR) (fg : FutureVal G ERR) (fh : FutureVal H ERR) :
    FutureVal (A × B × C × D × E × F × G × H) ERR :=
  and_thenf fa id (fun a => and_thenf fb id (fun b => and_thenf fc id (fun c => and_thenf fd id (fun d => and_thenf fe id (fun e => and_thenf ff id (fun f => and_thenf fg id (fun g => map fh (fun h => (a, b, c, d, e, f, g, h)))))))))

/-- Reference function written from the spec words for `join_8`: if every
input succeeds the ordered tuple of successes, otherwise the first failure
encountered along the left-to-right chain. -/
def joinSpec8 {A B C D E F G H ERR : Type}
    (ra : RustResult A ERR) (rb : RustResult B ERR) (rc : RustResult C ERR) (rd : RustResult D ERR) (re : RustResult E ERR) (rf : RustResult F ERR) (rg : RustResult G ERR) (rh : RustResult H ERR) :
    RustResult (A × B × C × D × E × F × G × H) ERR :=
  match ra with
  | RustResult.Err e => RustResult.Err e
  | RustResult.Ok a =>
    match rb with
    | RustResult.Err e => RustResult.Err e
    | RustResult.Ok b =>
      match rc with
      | RustResult.Err e => RustResult.Err e
      | RustResult.Ok c =>
        match rd with
        | RustResult.Err e => RustResult.Err e
        | RustResult.Ok d =>
          match re with
          | RustResult.Err e => RustResult.Err e
          | RustResult.Ok e =>
            match rf with
            | RustResult.Err e => RustResult.Err e
            | RustResult.Ok f =>
              match rg with
              | RustResult.Err e => RustResult.Err e
              | RustResult.Ok g =>
                match rh with
                | RustResult.Err e => RustResult.Err e
                | RustResult.Ok h =>
                  RustResult.Ok (a, b, c, d, e, f, g, h)

/-- `join9` (src/join.rs), transcribed from the nested `and_thenf`/`map`
chain; the `Into<ERR>` conversion for the common error type is the identity. -/
def join9 {A B C D E F G H I ERR : Type}
    (fa : FutureVal A ERR) (fb : FutureVal B ERR) (fc : FutureVal C ERR) (fd : FutureVal D ERR) (fe : FutureVal E ERR) (ff : FutureVal F ERR) (fg : FutureVal G ERR) (fh : FutureVal H ERR) (fi : FutureVal I ERR) :
    FutureVal (A × B × C × D × E × F × G × H × I) ERR :=
  and_thenf fa id (fun a => and_thenf fb id (fun b => and_thenf fc id (fun c => and_thenf fd id (fun d => and_thenf fe id (fun e => and_thenf ff id (fun f => and_thenf fg id (fun g => and_thenf fh id (fun h => map fi (fun i => (a, b, c, d, e, f, g, h, i))))))))))

/-- Reference function written from the spec words for `join_9`: if every
input succeeds the ordered tuple of successes, otherwise the first failure
encountered along the left-to-right chain. -/
def joinSpec9 {A B C D E F G H I ERR : Type}
    (ra : RustResult A ERR) (rb : RustResult B ERR) (rc : RustResult C ERR) (rd : RustResult D ERR) (re : RustResult E ERR) (rf : RustResult F ERR) (rg : RustResult G ERR) (rh : RustResult H ERR) (ri : RustResult I ERR) :
    RustResult (A × B × C × D × E × F × G × H × I) ERR :=
  match ra with
  | RustResult.Err e => RustResult.Err e
  | RustResult.Ok a =>
    match rb with
    | RustResult.Err e => RustResult.Err e
    | RustResult.Ok b =>
      match rc with
      | RustResult.Err e => RustResult.Err e
      | RustResult.Ok c =>
        match rd with
        | RustResult.Err e => RustResult.Err e
        | RustResult.Ok d =>
          match re with
          | RustResult.Err e => RustResult.Err e
          | RustResult.Ok e =>
            match rf with
            | RustResult.Err e => RustResult.Err e
            | RustResult.Ok f =>
              match rg with
              | RustResult.Err e => RustResult.Err e
              | RustResult.Ok g =>
                match rh with
                | RustResult.Err e => RustResult.Err e
                | RustResult.Ok h =>
                  match ri with
                  | RustResult.Err e => RustResult.Err e
                  | RustResult.Ok i =>
                    RustResult.Ok (a, b, c, d, e, f, g, h, i)

/-- `join10` (src/join.rs), transcribed from the nested `and_thenf`/`map`
chain; the `Into<ERR>` conversion for the common error type is the identity. -/
def join10 {A B C D E F G H I J ERR : Type}
    (fa : FutureVal A ERR) (fb : FutureVal B ERR) (fc : FutureVal C ERR) (fd : FutureVal D ERR) (fe : FutureVal E ERR) (ff : FutureVal F ERR) (fg : FutureVal G ERR) (fh : FutureVal H ERR) (fi : FutureVal I ERR) (fj : FutureVal J ERR) :
    FutureVal (A × B × C × D × E × F × G × H × I × J) ERR :=
  and_thenf fa id (fun a => and_thenf fb id (fun b => and_thenf fc id (fun c => and_thenf fd id (fun d => and_thenf fe id (fun e => and_thenf ff id (fun f => and_thenf fg id (fun g => and_thenf fh id (fun h => and_thenf fi id (fun i => map fj (fun j => (a, b, c, d, e, f, g, h, i, j)))))))))))

/-- Reference function written from the spec words for `join_10`: if every
input succeeds the ordered tuple of successes, otherwise the first failure
encountered along the left-to-right chain. -/
def joinSpec10 {A B C D E F G H I J ERR : Type}
    (ra : RustResult A ERR) (rb : RustResult B ERR) (rc : RustResult C ERR) (rd : RustResult D ERR) (re : RustResult E ERR) (rf : RustResult F ERR) (rg : RustResult G ERR) (rh : RustResult H ERR) (ri : RustResult I ERR) (rj : RustResult J ERR) :
    RustResult (A × B × C × D × E × F × G × H × I × J) ERR :=
  match ra with
  | RustResult.Err e => RustResult.Err e
  | RustResult.Ok a =>
    match rb with
    | RustResult.Err e => RustResult.Err e
    | RustResult.Ok b =>
      match rc with
      | RustResult.Err e => RustResult.Err e
      | RustResult.Ok c =>
        match rd with
        | RustResult.Err e => RustResult.Err e
        | RustResult.Ok d =>
          match re with
          | RustResult.Err e => RustResult.Err e
          | RustResult.Ok e =>
            match rf with
            | RustResult.Err e => RustResult.Err e
            | RustResult.Ok f =>
              match rg with
              | RustResult.Err e => RustResult.Err e
              | RustResult.Ok g =>
                match rh with
                | RustResult.Err e => RustResult.Err e
                | RustResult.Ok h =>
                  match ri with
                  | RustResult.Err e => RustResult.Err e
                  | RustResult.Ok i =>
                    match rj with
                    | RustResult.Err e => RustResult.Err e
                    | RustResult.Ok j =>
                      RustResult.Ok (a, b, c, d, e, f, g, h, i, j)

/-- `join11` (src/join.rs), transcribed from the nested `and_thenf`/`map`
chain; the `Into<ERR>` conversion for the common error type is the identity. -/
def join11 {A B C D E F G H I J K ERR : Type}
    (fa : FutureVal A ERR) (fb : FutureVal B ERR) (fc : FutureVal C ERR) (fd : FutureVal D ERR) (fe : FutureVal E ERR) (ff : FutureVal F ERR) (fg : FutureVal G ERR) (fh : FutureVal H ERR) (fi : FutureVal I ERR) (fj : FutureVal J ERR) (fk : FutureVal K ERR) :
    FutureVal (A × B × C × D × E × F × G × H × I × J × K) ERR :=
  and_thenf fa id (fun a => and_thenf fb id (fun b => and_thenf fc id (fun c => and_thenf fd id (fun d => and_thenf fe id (fun e => and_thenf ff id (fun f => and_thenf fg id (fun g => and_thenf fh id (fun h => and_thenf fi id (fun i => and_thenf fj id (fun j => map fk (fun k => (a, b, c, d, e, f, g, h, i, j, k))))))))))))

/-- Reference function written from the spec words for `join_11`: if every
input succeeds the ordered tuple of successes, otherwise the first failure
encountered along the left-to-right chain. -/
def joinSpec11 {A B C D E F G H I J K ERR : Type}
    (ra : RustResult A ERR) (rb : RustResult B ERR) (rc : RustResult C ERR) (rd : RustResult D ERR) (re : RustResult E ERR) (rf : RustResult F ERR) (rg : RustResult G ERR) (rh : RustResult H ERR) (ri : RustResult I ERR) (rj : RustResult J ERR) (rk : RustResult K ERR) :
    RustResult (A × B × C × D × E × F × G × H × I × J × K) ERR :=
  match ra with
  | RustResult.Err e => RustResult.Err e
  | RustResult.Ok a =>
    match rb with
    | RustResult.Err e => RustResult.Err e
    | RustResult.Ok b =>
      match rc with
      | RustResult.Err e => RustResult.Err e
      | RustResult.Ok c =>
        match rd with
        | RustResult.Err e => RustResult.Err e
        | RustResult.Ok d =>
          match re with
          | RustResult.Err e => RustResult.Err e
          | RustResult.Ok e =>
            match rf with
            | RustResult.Err e => RustResult.Err e
            | RustResult.Ok f =>
              match rg with
              | RustResult.Err e => RustResult.Err e
              | RustResult.Ok g =>
                match rh with
                | RustResult.Err e => RustResult.Err e
                | RustResult.Ok h =>
                  match ri with
                  | RustResult.Err e => RustResult.Err e
                  | RustResult.Ok i =>
                    match rj with
                    | RustResult.Err e => RustResult.Err e
                    | RustResult.Ok j =>
                      match rk with
                      | RustResult.Err e => RustResult.Err e
                      | RustResult.Ok k =>
                        RustResult.Ok (a, b, c, d, e, f, g, h, i, j, k)

/-- `join12` (src/join.rs), transcribed from the nested `and_thenf`/`map`
chain; the `Into<ERR>` conversion for the common error type is the identity. -/
def join12 {A B C D E F G H I J K L ERR : Type}
    (fa : FutureVal A ERR) (fb : FutureVal B ERR) (fc : FutureVal C ERR) (fd : FutureVal D ERR) (fe : FutureVal E ERR) (ff : FutureVal F ERR) (fg : FutureVal G ERR) (fh : FutureVal H ERR) (fi : FutureVal I ERR) (fj : FutureVal J ERR) (fk : FutureVal K ERR) (fl : FutureVal L ERR) :
    FutureVal (A × B × C × D × E × F × G × H × I × J × K × L) ERR :=
  and_thenf fa id (fun a => and_thenf fb id (fun b => and_thenf fc id (fun c => and_thenf fd id (fun d => and_thenf fe id (fun e => and_thenf ff id (fun f => and_thenf fg id (fun g => and_thenf fh id (fun h => and_thenf fi id (fun i => and_thenf fj id (fun j => and_thenf fk id (fun k => map fl (fun l => (a, b, c, d, e, f, g, h, i, j, k, l)))))))))))))

/-- Reference function written from the spec words for `join_12`: if every
input succeeds the ordered tuple of successes, otherwise the first failure
encountered along the left-to-right chain. -/
def joinSpec12 {A B C D E F G H I J K L ERR : Type}
    (ra : RustResult A ERR) (rb : RustResult B ERR) (rc : RustResult C ERR) (rd : RustResult D ERR) (re : RustResult E ERR) (rf : RustResult F ERR) (rg : RustResult G ERR) (rh : RustResult H ERR) (ri : RustResult I ERR) (rj : RustResult J ERR) (rk : RustResult K ERR) (rl : RustResult L ERR) :
    RustResult (A × B × C × D × E × F × G × H × I × J × K × L) ERR :=
  match ra with
  | RustResult.Err e => RustResult.Err e
  | RustResult.Ok a =>
    match rb with
    | RustResult.Err e => RustResult.Err e
    | RustResult.Ok b =>
      match rc with
      | RustResult.Err e => RustResult.Err e
      | RustResult.Ok c =>
        match rd with
        | RustResult.Err e => RustResult.Err e
        | RustResult.Ok d =>
          match re with
          | RustResult.Err e => RustResult.Err e
          | RustResult.Ok e =>
            match rf with
            | RustResult.Err e => RustResult.Err e
            | RustResult.Ok f =>
              match rg with
              | RustResult.Err e => RustResult.Err e
              | RustResult.Ok g =>
                match rh with
                | RustResult.Err e => RustResult.Err e
                | RustResult.Ok h =>
                  match ri with
                  | RustResult.Err e => RustResult.Err e
                  | RustResult.Ok i =>
                    match rj with
                    | RustResult.Err e => RustResult.Err e
                    | RustResult.Ok j =>
                      match rk with
                      | RustResult.Err e => RustResult.Err e
                      | RustResult.Ok k =>
                        match rl with
                        | RustResult.Err e => RustResult.Err e
                        | RustResult.Ok l =>
                          RustResult.Ok (a, b, c, d, e, f, g, h, i, j, k, l)


/-- The fold step of the `FromIterator` implementation (src/lib.rs lines
400-409): `acc.and_thenf(move |mut successes| next.transform(... push ...))`;
pushing onto a vector is appending one element. -/
def collectStep {A E : Type} (acc : FutureVal (List A) E) (next : FutureVal A E) :
    FutureVal (List A) E :=
  and_thenf acc id (fun successes =>
    transform next (fun result => match result with
      | RustResult.Ok a => RustResult.Ok (successes ++ [a])
      | RustResult.Err e => RustResult.Err e))

/-- `FromIterator<Future<A, E>> for Future<F, E>` (src/lib.rs lines 397-412):
fold from `value(vec![])` with `collectStep`, then `map` the success vector
into the requested container; with a list container the final collect is the
identity. -/
def from_iter {A E : Type} (l : List (FutureVal A E)) : FutureVal (List A) E :=
  map (l.foldl collectStep (value [])) (fun successes => successes)

-- ------------------------------------------------------------------
-- Operational model of the rendezvous cell of src/lib.rs.
-- ------------------------------------------------------------------

/-- Primitive events performed by `resolve`/`set_result`: taking the cell
mutex, releasing it, and invoking a user callback (identified by the callback
object of abstract type `κ`) with a value of type `ρ`. -/
inductive Ev (ρ κ : Type) where
  | lock
  | unlock
  | invoke (cb : κ) (r : ρ)
deriving DecidableEq, Repr

/-- The callback invocations recorded in an event list, in order. -/
def invokes {ρ κ : Type} (evs : List (Ev ρ κ)) : List (κ × ρ) :=
  evs.filterMap (fun e => match e with
    | Ev.invoke cb r => some (cb, r)
    | _ => none)

/-- `true` when some callback invocation in the event list happens while the
cell mutex is held (lock depth positive at that point). -/
def invokedUnderLock {ρ κ : Type} (evs : List (Ev ρ κ)) : Bool :=
  (evs.foldl (fun (acc : Nat × Bool) e =>
    match e with
    | Ev.lock => (acc.1 + 1, acc.2)
    | Ev.unlock => (acc.1 - 1, acc.2)
    | Ev.invoke _ _ => (acc.1, acc.2 || decide (0 < acc.1))) (0, false)).2

/-- State of the rendezvous cell of the crate root design (src/lib.rs lines
51-66): the result slot and the callback slot, shared by `Future` and
`FutureSetter`.  Callbacks are abstract objects of type `κ`. -/
structure LibState (ρ κ : Type) where
  result : Option ρ
  callback : Option κ
deriving DecidableEq, Repr

namespace Lib

/-- `future::new` (src/lib.rs lines 71-88): both slots empty. -/
def newState {ρ κ : Type} : LibState ρ κ :=
  { result := none, callback := none }

/-- `Future::resolve` (src/lib.rs lines 378-394).  The mutex guard
`let _lock = self.lock.lock().unwrap()` is dropped only when the function
returns, so when a published result is present the stored result is taken out
(`unwrap_unsafe`) and the callback `f` is invoked before the unlock event;
otherwise `f` is stored in the callback slot. -/
def resolve {ρ κ : Type} (st : LibState ρ κ) (f : κ) :
    LibState ρ κ × List (Ev ρ κ) :=
  match st.result with
  | some r => ({ st with result := none }, [Ev.lock, Ev.invoke f r, Ev.unlock])
  | none => ({ st with callback := some f }, [Ev.lock, Ev.unlock])

/-- `FutureSetter::set_result` (src/lib.rs lines 417-432).  The
`E2: Into<E>` conversion (`result.map_err(E2::into)`, modelled by `conv`) is
applied before the mutex is taken.  If a callback is installed it is taken out
and invoked before the unlock event; otherwise the converted result is
stored. -/
def set_result {α ε ε2 κ : Type} (st : LibState (RustResult α ε) κ)
    (conv : ε2 → ε) (res : RustResult α ε2) :
    LibState (RustResult α ε) κ × List (Ev (RustResult α ε) κ) :=
  let result := res.map_err conv
  match st.callback with
  | some cb =>
      ({ st with callback := none }, [Ev.lock, Ev.invoke cb result, Ev.unlock])
  | none =>
      ({ st with result := some result }, [Ev.lock, Ev.unlock])

/-- `Future::is_resolved` (src/lib.rs lines 147-150): under the mutex, whether
the result slot is occupied. -/
def is_resolved {ρ κ : Type} (st : LibState ρ κ) : Bool :=
  st.result.isSome

/-- Cell state produced by `future::done(result)` (src/lib.rs lines 101-105):
a fresh pair whose setter immediately publishes `result` (identity error
conversion). -/
def doneState {α ε κ : Type} (res : RustResult α ε) : LibState (RustResult α ε) κ :=
  (set_result newState id res).1

end Lib

-- ------------------------------------------------------------------
-- Operational model of the rendezvous cell of src/future.rs (the iteration
-- with the liveness flag and Drop implementations, cited by the claims about
-- dropped handles).
-- ------------------------------------------------------------------

/-- State of the rendezvous cell of src/future.rs (lines 40-56): the liveness
flag `Arc<Mutex<Cell<bool>>>` (set to `false` when either handle is dropped)
plus the two `Holder` slots. -/
structure FutState (ρ κ : Type) where
  alive : Bool
  result : Option ρ
  callback : Option κ
deriving DecidableEq, Repr

namespace Fut

/-- `future::new` (src/future.rs lines 61-75): alive, both holders empty. -/
def newState {ρ κ : Type} : FutState ρ κ :=
  { alive := true, result := none, callback := none }

/-- `Future::resolve` (src/future.rs lines 349-359).  `Holder::get` takes the
stored result out; if no result is stored the callback is kept only while the
peer is alive, and silently dropped otherwise.  The lifetime-extended mutex
borrow is released at the end of the function, after any invocation. -/
def resolve {ρ κ : Type} (st : FutState ρ κ) (f : κ) :
    FutState ρ κ × List (Ev ρ κ) :=
  match st.result with
  | some r => ({ st with result := none }, [Ev.lock, Ev.invoke f r, Ev.unlock])
  | none =>
      if st.alive then
        ({ st with callback := some f }, [Ev.lock, Ev.unlock])
      else
        (st, [Ev.lock, Ev.unlock])

/-- `FutureSetter::set_result` (src/future.rs lines 369-381): the
`E2: Into<E>` conversion is applied before the mutex is taken; a stored
callback is taken out and invoked with the converted result; with no callback
the converted result is stored only while the peer is alive, and silently
dropped otherwise. -/
def set_result {α ε ε2 κ : Type} (st : FutState (RustResult α ε) κ)
    (conv : ε2 → ε) (res : RustResult α ε2) :
    FutState (RustResult α ε) κ × List (Ev (RustResult α ε) κ) :=
  let result := res.map_err conv
  match st.callback with
  | some cb =>
      ({ st with callback := none }, [Ev.lock, Ev.invoke cb result, Ev.unlock])
  | none =>
      if st.alive then
        ({ st with result := some result }, [Ev.lock, Ev.unlock])
      else
        (st, [Ev.lock, Ev.unlock])

/-- `Drop for FutureSetter` (src/future.rs lines 383-388): under the mutex,
set the liveness flag to `false`. -/
def dropSetter {ρ κ : Type} (st : FutState ρ κ) : FutState ρ κ :=
  { st with alive := false }

/-- `Drop for Future` (src/future.rs lines 362-367): under the mutex, set the
liveness flag to `false`. -/
def dropFuture {ρ κ : Type} (st : FutState ρ κ) : FutState ρ κ :=
  { st with alive := false }

end Fut

/-- `DroppedSetterError` (src/lib.rs lines 444-445 and src/future.rs lines
394-395). -/
inductive DroppedSetterError where
  | mk
deriving DecidableEq, Repr

/-- The `Display` output of `DroppedSetterError` (src/lib.rs lines 447-451). -/
def droppedSetterDisplay : String :=
  "DroppedSetterError"

/-- The `Error::description` string of `DroppedSetterError` (src/lib.rs lines
453-457). -/
def droppedSetterDescription : String :=
  "The FutureSetter associated with this Future has been dropped without setting a Result"

namespace Fut

/-- `future::await_safe` (src/lib.rs lines 121-127, over the src/future.rs
cell): install a callback that sends the outcome through a one-shot channel
and block on the receiver.  If `resolve` invokes the callback, the receiver
obtains that value.  If `resolve` discards the callback (peer dead), the
sender is destroyed, the channel disconnects and `recv` yields
`DroppedSetterError`.  If the callback is stored, the call blocks awaiting the
setter; that case is outside this one-cell model and is `none` here. -/
def await_safe {ρ : Type} (st : FutState ρ Unit) :
    Option (Except DroppedSetterError ρ) :=
  let out := resolve st ()
  match invokes out.2 with
  | [(_, r)] => some (Except.ok r)
  | _ =>
      if out.1.callback.isSome then none
      else some (Except.error DroppedSetterError.mk)

/-- `future::await` (src/lib.rs lines 111-115): `await_safe(f).unwrap()`.
`none` stands for a call that does not return normally (the unwrap panic on a
dropped setter, or blocking forever). -/
def awaitUnwrap {ρ : Type} (st : FutState ρ Unit) : Option ρ :=
  (await_safe st).bind (fun res => match res with
    | Except.ok r => some r
    | Except.error _ => none)

end Fut


-- ------------------------------------------------------------------
-- Helper lemmas (shared).
-- ------------------------------------------------------------------

@[simp] theorem rustResult_map_err_id {A E : Type} (r : RustResult A E) :
    r.map_err id = r := by
  cases r <;> rfl

/-- Folding the collector step over all-successful inputs accumulates the
successes in order. -/
theorem collect_fold_ok {A E : Type} (l : List A) (acc : List A) :
    List.foldl collectStep ((value acc : FutureVal (List A) E))
        (l.map (fun a => value a)) = RustResult.Ok (acc ++ l) := by
  induction l generalizing acc with
  | nil => simp [value, done]
  | cons a l ih =>
      have hstep :
          collectStep ((value acc : FutureVal (List A) E)) (value a)
            = value (acc ++ [a]) := by
        rfl
      simp only [List.map_cons, List.foldl_cons, hstep, ih]
      simp [value, done]

/-- A failed accumulator absorbs the rest of the fold. -/
theorem collect_fold_err {A E : Type} (l : List (FutureVal A E)) (e : E) :
    List.foldl collectStep (RustResult.Err e) l = RustResult.Err e := by
  induction l with
  | nil => rfl
  | cons x l ih => simpa [collectStep, and_thenf, transformf, done] using ih

-- ------------------------------------------------------------------
-- Claim theorems.
-- ------------------------------------------------------------------

/-- Claim C1: for every pair and every outcome `R`, whether the terminal
callback `cb` is installed by `resolve` before or after the setter publishes
`R` through `set_result`, the two-operation run of the cell invokes exactly
one callback, namely `cb`, with exactly the value `R` (src/lib.rs lines
378-394 and 417-432; the identity conversion instantiates `E2 = E`). -/
theorem rendezvous_callback_exactly_once :
    ∀ (α ε κ : Type) (R : RustResult α ε) (cb : κ),
      (invokes ((Lib.resolve (Lib.newState (ρ := RustResult α ε)) cb).2
          ++ (Lib.set_result (Lib.resolve Lib.newState cb).1 id R).2) = [(cb, R)])
    ∧ (invokes ((Lib.set_result (Lib.newState (κ := κ)) id R).2
          ++ (Lib.resolve (Lib.set_result Lib.newState id R).1 cb).2) = [(cb, R)]) := by
  intro α ε κ R cb
  constructor
  · cases R <;> rfl
  · cases R <;> rfl

/-- Claim C2, counterexample: in the run where the producer has already
published (`doneState`) and `resolve` then finds the stored result, the user
callback is invoked at a point where the cell mutex is held, contradicting
the claim that user code is never invoked while the cell mutex is held. -/
theorem invoke_under_lock_cex :
    invokedUnderLock
      (Lib.resolve (Lib.doneState (κ := Unit) (RustResult.Ok (0 : Nat) : RustResult Nat Nat)) ()).2
      = true := by
  decide

/-- Claim C2, amended: when `resolve` or `set_result` finds the peer
contribution, it extracts it from the cell (the slot is emptied before the
invocation) and invokes the user function while still holding the cell mutex;
the mutex is released only when the call returns (the `_lock` guard in
src/lib.rs lines 381 and 419 lives to the end of the function). -/
theorem extract_then_invoke_while_locked :
    ∀ (α ε κ : Type) (R : RustResult α ε) (cb f : κ) (c : Option κ)
      (r0 : Option (RustResult α ε)),
      (Lib.resolve { result := some R, callback := c } f
        = ({ result := none, callback := c }, [Ev.lock, Ev.invoke f R, Ev.unlock]))
    ∧ (Lib.set_result { result := r0, callback := some cb } id R
        = ({ result := r0, callback := none }, [Ev.lock, Ev.invoke cb R, Ev.unlock]))
    ∧ invokedUnderLock [Ev.lock, Ev.invoke f R, Ev.unlock] = true := by
  intro α ε κ R cb f c r0
  refine ⟨rfl, ?_, rfl⟩
  cases R <;> rfl

/-- Claim C3: if the setter is dropped without publishing (src/future.rs
liveness flag set to `false`, lines 383-388), `resolve` discards the callback
without storing or invoking it, installing a callback performs no invocation
in the first place, and `await_safe` on that future returns
`Err(DroppedSetterError)` (src/future.rs lines 349-359, src/lib.rs lines
121-127). -/
theorem dropped_setter_no_callback :
    ∀ (α ε κ : Type) (cb : κ),
      (Fut.resolve (Fut.dropSetter (Fut.newState (ρ := RustResult α ε))) cb
        = (Fut.dropSetter Fut.newState, [Ev.lock, Ev.unlock]))
    ∧ (invokes ((Fut.resolve (Fut.dropSetter (Fut.newState (ρ := RustResult α ε) (κ := κ))) cb).2) = [])
    ∧ (invokes ((Fut.resolve (Fut.newState (ρ := RustResult α ε) (κ := κ)) cb).2) = [])
    ∧ (Fut.await_safe (Fut.dropSetter (Fut.newState (ρ := RustResult α ε) (κ := Unit)))
        = some (Except.error DroppedSetterError.mk)) := by
  intro α ε κ cb
  exact ⟨rfl, rfl, rfl, rfl⟩

/-- Claim C4: starting from the resolved future `value::<i64, String>(0)` and
applying, in declaration order, `map (+1)`, `and_then` returning `Ok(n+1)`,
`transform` mapping `Ok(n)` to `Err((n+1).to_string())`, `map_err incr`,
`rescue` returning `Err(incr(s))`, `handle` computing `parse(s)+1`,
`and_thenf` returning `err((n+1).to_string())`, `transformf` mapping `Err(s)`
to `err(incr(s))`, and `rescuef` returning `value(parse(s)+1)` (where `incr`
parses an integer string, adds 1, re-stringifies), the awaited final outcome
equals `Ok(9)`. -/
theorem chainS4_eq_ok_nine : chainS4 = RustResult.Ok 9 := by
  decide

/-- Claim C5: for `join_N` with `N` between 2 and 12, the aggregate succeeds
with the `N`-tuple of successes in input order when every input succeeds, and
otherwise fails with the first failure encountered along the left-to-right
chain (reference function `joinSpecN`); in particular
`join3 (value 1) (err "boom") (value 3)` awaited equals `Err "boom"`. -/
theorem join_matches_first_failure_spec :
    (∀ (A B ERR : Type) (ra : RustResult A ERR) (rb : RustResult B ERR),
      join2 ra rb = joinSpec2 ra rb)
  ∧ (∀ (A B C ERR : Type) (ra : RustResult A ERR) (rb : RustResult B ERR) (rc : RustResult C ERR),
      join3 ra rb rc = joinSpec3 ra rb rc)
  ∧ (∀ (A B C D ERR : Type) (ra : RustResult A ERR) (rb : RustResult B ERR) (rc : RustResult C ERR) (rd : RustResult D ERR),
      join4 ra rb rc rd = joinSpec4 ra rb rc rd)
  ∧ (∀ (A B C D E ERR : Type) (ra : RustResult A ERR) (rb : RustResult B ERR) (rc : RustResult C ERR) (rd : RustResult D ERR) (re : RustResult E ERR),
      join5 ra rb rc rd re = joinSpec5 ra rb rc rd re)
  ∧ (∀ (A B C D E F ERR : Type) (ra : RustResult A ERR) (rb : RustResult B ERR) (rc : RustResult C ERR) (rd : RustResult D ERR) (re : RustResult E ERR) (rf : RustResult F ERR),
      join6 ra rb rc rd re rf = joinSpec6 ra rb rc rd re rf)
  ∧ (∀ (A B C D E F G ERR : Type) (ra : RustResult A ERR) (rb : RustResult B ERR) (rc : RustResult C ERR) (rd : RustResult D ERR) (re : RustResult E ERR) (rf : RustResult F ERR) (rg : RustResult G ERR),
      join7 ra rb rc rd re rf rg = joinSpec7 ra rb rc rd re rf rg)
  ∧ (∀ (A B C D E F G H ERR : Type) (ra : RustResult A ERR) (rb : RustResult B ERR) (rc : RustResult C ERR) (rd : RustResult D ERR) (re : RustResult E ERR) (rf : RustResult F ERR) (rg : RustResult G ERR) (rh : RustResult H ERR),
      join8 ra rb rc rd re rf rg rh = joinSpec8 ra rb rc rd re rf rg rh)
  ∧ (∀ (A B C D E F G H I ERR : Type) (ra : RustResult A ERR) (rb : RustResult B ERR) (rc : RustResult C ERR) (rd : RustResult D ERR) (re : RustResult E ERR) (rf : RustResult F ERR) (rg : RustResult G ERR) (rh : RustResult H ERR) (ri : RustResult I ERR),
      join9 ra rb rc rd re rf rg rh ri = joinSpec9 ra rb rc rd re rf rg rh ri)
  ∧ (∀ (A B C D E F G H I J ERR : Type) (ra : RustResult A ERR) (rb : RustResult B ERR) (rc : RustResult C ERR) (rd : RustResult D ERR) (re : RustResult E ERR) (rf : RustResult F ERR) (rg : RustResult G ERR) (rh : RustResult H ERR) (ri : RustResult I ERR) (rj : RustResult J ERR),
      join10 ra rb rc rd re rf rg rh ri rj = joinSpec10 ra rb rc rd re rf rg rh ri rj)
  ∧ (∀ (A B C D E F G H I J K ERR : Type) (ra : RustResult A ERR) (rb : RustResult B ERR) (rc : RustResult C ERR) (rd : RustResult D ERR) (re : RustResult E ERR) (rf : RustResult F ERR) (rg : RustResult G ERR) (rh : RustResult H ERR) (ri : RustResult I ERR) (rj : RustResult J ERR) (rk : RustResult K ERR),
      join11 ra rb rc rd re rf rg rh ri rj rk = joinSpec11 ra rb rc rd re rf rg rh ri rj rk)
  ∧ (∀ (A B C D E F G H I J K L ERR : Type) (ra : RustResult A ERR) (rb : RustResult B ERR) (rc : RustResult C ERR) (rd : RustResult D ERR) (re : RustResult E ERR) (rf : RustResult F ERR) (rg : RustResult G ERR) (rh : RustResult H ERR) (ri : RustResult I ERR) (rj : RustResult J ERR) (rk : RustResult K ERR) (rl : RustResult L ERR),
      join12 ra rb rc rd re rf rg rh ri rj rk rl = joinSpec12 ra rb rc rd re rf rg rh ri rj rk rl)
  ∧ join3 (value (1 : Int)) ((err "boom") : FutureVal Int String) (value (3 : Int))
      = RustResult.Err "boom" := by
  refine ⟨?_, ?_, ?_, ?_, ?_, ?_, ?_, ?_, ?_, ?_, ?_, ?_⟩
  · intro A B ERR ra rb
    cases ra <;> cases rb <;> rfl
  · intro A B C ERR ra rb rc
    cases ra <;> cases rb <;> cases rc <;> rfl
  · intro A B C D ERR ra rb rc rd
    cases ra <;> cases rb <;> cases rc <;> cases rd <;> rfl
  · intro A B C D E ERR ra rb rc rd re
    cases ra <;> cases rb <;> cases rc <;> cases rd <;> cases re <;> rfl
  · intro A B C D E F ERR ra rb rc rd re rf
    cases ra <;> cases rb <;> cases rc <;> cases rd <;> cases re <;> cases rf <;> rfl
  · intro A B C D E F G ERR ra rb rc rd re rf rg
    cases ra <;> cases rb <;> cases rc <;> cases rd <;> cases re <;> cases rf <;> cases rg <;> rfl
  · intro A B C D E F G H ERR ra rb rc rd re rf rg rh
    cases ra <;> cases rb <;> cases rc <;> cases rd <;> cases re <;> cases rf <;> cases rg <;> cases rh <;> rfl
  · intro A B C D E F G H I ERR ra rb rc rd re rf rg rh ri
    cases ra <;> cases rb <;> cases rc <;> cases rd <;> cases re <;> cases rf <;> cases rg <;> cases rh <;> cases ri <;> rfl
  · intro A B C D E F G H I J ERR ra rb rc rd re rf rg rh ri rj
    cases ra <;> cases rb <;> cases rc <;> cases rd <;> cases re <;> cases rf <;> cases rg <;> cases rh <;> cases ri <;> cases rj <;> rfl
  · intro A B C D E F G H I J K ERR ra rb rc rd re rf rg rh ri rj rk
    cases ra <;> cases rb <;> cases rc <;> cases rd <;> cases re <;> cases rf <;> cases rg <;> cases rh <;> cases ri <;> cases rj <;> cases rk <;> rfl
  · intro A B C D E F G H I J K L ERR ra rb rc rd re rf rg rh ri rj rk rl
    cases ra <;> cases rb <;> cases rc <;> cases rd <;> cases re <;> cases rf <;> cases rg <;> cases rh <;> cases ri <;> cases rj <;> cases rk <;> cases rl <;> rfl
  · rfl

/-- Claim C6: collecting a finite ordered sequence of futures through the
`FromIterator` implementation yields `Ok` of the success values in input order
when every input succeeds, and the first failure in iteration order when some
input fails (src/lib.rs lines 397-412). -/
theorem from_iter_ok_and_first_failure :
    (∀ (A E : Type) (l : List A),
      from_iter ((l.map (fun a => value a)) : List (FutureVal A E)) = RustResult.Ok l)
  ∧ (∀ (A E : Type) (pre : List A) (e : E) (rest : List (FutureVal A E)),
      from_iter ((pre.map (fun a => value a)) ++ err e :: rest) = RustResult.Err e) := by
  constructor
  · intro A E l
    have h := collect_fold_ok (E := E) l []
    simp [from_iter, h, map, transform]
  · intro A E pre e rest
    have hpre := collect_fold_ok (E := E) pre []
    have hstep :
        collectStep ((RustResult.Ok pre : FutureVal (List A) E)) (err e)
          = RustResult.Err e := by
      rfl
    simp [from_iter, List.foldl_append, hpre, hstep, collect_fold_err, map, transform]

/-- Claim C7: `is_resolved` is true exactly when a published result sits
unclaimed in the rendezvous cell (src/lib.rs lines 147-150); in particular the
future returned by `done`, and hence by `value` and `err` (src/lib.rs lines
91-105), is immediately resolved, while a freshly created pair is not. -/
theorem is_resolved_iff_unclaimed_result :
    (∀ (α ε κ : Type) (st : LibState (RustResult α ε) κ),
      Lib.is_resolved st = true ↔ ∃ r, st.result = some r)
  ∧ (∀ (α ε κ : Type) (res : RustResult α ε),
      Lib.is_resolved (Lib.doneState (κ := κ) res) = true)
  ∧ (∀ (α ε κ : Type) (a : α),
      Lib.is_resolved (Lib.doneState (κ := κ) (RustResult.Ok a : RustResult α ε)) = true)
  ∧ (∀ (α ε κ : Type) (e : ε),
      Lib.is_resolved (Lib.doneState (κ := κ) (RustResult.Err e : RustResult α ε)) = true)
  ∧ (∀ (α ε κ : Type),
      Lib.is_resolved (Lib.newState (ρ := RustResult α ε) (κ := κ)) = false) := by
  refine ⟨?_, ?_, ?_, ?_, ?_⟩
  · intro α ε κ st
    cases h : st.result <;> simp [Lib.is_resolved, h]
  · intro α ε κ res; rfl
  · intro α ε κ a; rfl
  · intro α ε κ e; rfl
  · intro α ε κ; rfl

/-- Claim C8, counterexample: neither the `Error::description` string nor the
`Display` output of `DroppedSetterError` (src/lib.rs lines 447-457) equals the
description claimed by the specification. -/
theorem dropped_setter_description_cex :
    droppedSetterDescription
        ≠ "The producer associated with this future was dropped without publishing a result"
    ∧ droppedSetterDisplay
        ≠ "The producer associated with this future was dropped without publishing a result" := by
  constructor <;> decide

/-- Claim C8, amended: the error surfaced by the safe blocking wait when the
producer is dropped without publishing carries the fixed
`Error::description` string "The FutureSetter associated with this Future has
been dropped without setting a Result" (its `Display` form is
"DroppedSetterError"), and `await`, which unwraps `await_safe`, panics on the
same condition. -/
theorem dropped_setter_error_strings :
    droppedSetterDescription
        = "The FutureSetter associated with this Future has been dropped without setting a Result"
    ∧ droppedSetterDisplay = "DroppedSetterError"
    ∧ (∀ (α ε : Type),
        Fut.await_safe (Fut.dropSetter (Fut.newState (ρ := RustResult α ε) (κ := Unit)))
          = some (Except.error DroppedSetterError.mk))
    ∧ (∀ (α ε : Type),
        Fut.awaitUnwrap (Fut.dropSetter (Fut.newState (ρ := RustResult α ε) (κ := Unit)))
          = none) := by
  exact ⟨rfl, rfl, fun α ε => rfl, fun α ε => rfl⟩

/-- Claim C9: if the future is dropped without a terminal callback installed
(liveness flag false), a later `set_result` is a no-op that silently discards
the result (src/future.rs lines 369-381); and in every `set_result` call the
`E2`-to-`E` conversion is applied before the result enters the cell, so a
stored callback is always invoked with the converted result. -/
theorem set_result_dropped_future_and_conversion :
    ∀ (α ε ε2 κ : Type) (conv : ε2 → ε) (res : RustResult α ε2)
      (r0 : Option (RustResult α ε)) (cb : κ) (alive : Bool),
      (Fut.set_result (Fut.dropFuture (Fut.newState (κ := κ))) conv res
        = (Fut.dropFuture Fut.newState, [Ev.lock, Ev.unlock]))
    ∧ (invokes (Fut.set_result (Fut.dropFuture (Fut.newState (κ := κ))) conv res).2 = [])
    ∧ (Fut.set_result { alive := alive, result := r0, callback := some cb } conv res
        = ({ alive := alive, result := r0, callback := none },
           [Ev.lock, Ev.invoke cb (res.map_err conv), Ev.unlock]))
    ∧ (Fut.set_result { alive := true, result := r0, callback := (none : Option κ) } conv res
        = ({ alive := true, result := some (res.map_err conv), callback := none },
           [Ev.lock, Ev.unlock])) := by
  intro α ε ε2 κ conv res r0 cb alive
  exact ⟨rfl, rfl, rfl, rfl⟩

/-- Claim C10: collecting an empty sequence of futures through the
`FromIterator` implementation yields an already-resolved future whose outcome
is `Ok` of the empty collection (the fold starts from `value(vec![])` and the
final `map` converts it into the requested container). -/
theorem from_iter_empty_ok :
    ∀ (A E : Type), from_iter ([] : List (FutureVal A E)) = RustResult.Ok ([] : List A) := by
  intro A E
  rfl

end RustFuture
